import Mathlib

/-!
Shallow embedding of the V4L2 buffer-lifecycle core of the RaspberryPi-WebRTC
repository: the buffer-group allocation protocol (src/common/v4l2_utils.cpp),
the M2M codec pipeline (src/codecs/v4l2/v4l2_codec.cpp) and the capture driver
loop (src/capturer/v4l2_capturer.cpp).  Device behaviour (ioctl results, mmap
results, select readiness) is supplied through explicit environment records;
every function below mirrors the control flow of the corresponding C++
function line by line.
-/

/-- struct timeval: the capture timestamp attached to dequeued buffers. -/
structure Timeval where
  tv_sec : Int
  tv_usec : Int
deriving DecidableEq, Repr

/-- v4l2_buf_type, restricted to the four values this repository uses. -/
inductive BufType
  | videoCapture
  | videoOutput
  | videoCaptureMplane
  | videoOutputMplane
deriving DecidableEq, Repr

/-- The multiplanar test `type == V4L2_BUF_TYPE_VIDEO_CAPTURE_MPLANE ||
type == V4L2_BUF_TYPE_VIDEO_OUTPUT_MPLANE` used throughout v4l2_utils.cpp. -/
def BufType.isMultiplanar : BufType → Bool
  | .videoCaptureMplane => true
  | .videoOutputMplane => true
  | _ => false

/-- v4l2_memory, restricted to the two values this repository uses. -/
inductive MemoryType
  | mmap
  | dmabuf
deriving DecidableEq, Repr

/-- V4L2_BUF_FLAG_KEYFRAME from videodev2.h. -/
def V4L2_BUF_FLAG_KEYFRAME : Nat := 8

/-- v4l2_fourcc from videodev2.h. -/
def v4l2_fourcc (a b c d : Nat) : Nat :=
  a ||| (b <<< 8) ||| (c <<< 16) ||| (d <<< 24)

/-- V4L2_PIX_FMT_H264, fourcc of the letters H 2 6 4. -/
def V4L2_PIX_FMT_H264 : Nat := v4l2_fourcc 72 50 54 52

/-- V4L2_PIX_FMT_MJPEG, fourcc of the letters M J P G. -/
def V4L2_PIX_FMT_MJPEG : Nat := v4l2_fourcc 77 74 80 71

/-- V4L2_PIX_FMT_NV12, fourcc of the letters N V 1 2. -/
def V4L2_PIX_FMT_NV12 : Nat := v4l2_fourcc 78 86 49 50

/-- The kernel struct v4l2_buffer (plus its planes array), as stored in a
V4L2Buffer and as filled by VIDIOC_QUERYBUF / VIDIOC_DQBUF.  Pointers are
modelled as abstract addresses; plane arrays as lists indexed by plane. -/
structure V4L2InnerBuffer where
  typ : BufType := .videoCapture
  memory : MemoryType := .mmap
  index : Nat := 0
  length : Nat := 0
  offset : Nat := 0
  flags : Nat := 0
  bytesused : Nat := 0
  timestamp : Timeval := ⟨0, 0⟩
  planeLengths : List Nat := []
  planeOffsets : List Nat := []
  planeFds : List Int := []
  planeBytesused : List Nat := []
deriving DecidableEq, Repr

/-- struct V4L2Buffer from src/common/v4l2_utils.h.  `start` and the
`plane_start` entries are `none` exactly when the C++ pointer is null. -/
structure V4L2Buffer where
  start : Option Nat := none
  plane_start : List (Option Nat) := List.replicate 8 none
  plane_length : List Nat := List.replicate 8 0
  plane_bytesused : List Nat := List.replicate 8 0
  pix_fmt : Nat := 0
  length : Nat := 0
  flags : Nat := 0
  dmafd : Int := -1
  timestamp : Timeval := ⟨0, 0⟩
  inner : V4L2InnerBuffer := {}
deriving DecidableEq, Repr

/-- V4L2Buffer::FromCapturedPlane (v4l2_utils.h):
`V4L2Buffer(start, fmt, bytesused, dmafd, flags, {0, 0})` — note the zero
timestamp. -/
def V4L2Buffer.FromCapturedPlane (start : Option Nat) (bytesused : Nat) (dmafd : Int)
    (flags : Nat) (fmt : Nat) : V4L2Buffer :=
  { start := start, pix_fmt := fmt, length := bytesused, dmafd := dmafd,
    flags := flags, timestamp := ⟨0, 0⟩ }

/-- V4L2Buffer::FromV4L2 (v4l2_utils.h): bytesused comes from planes[0] for
multiplanar buffer types, and the dequeued flags and timestamp are copied. -/
def V4L2Buffer.FromV4L2 (start : Option Nat) (v : V4L2InnerBuffer) (fmt : Nat) : V4L2Buffer :=
  let bytesused := if v.typ.isMultiplanar then v.planeBytesused.getD 0 0 else v.bytesused
  { start := start, pix_fmt := fmt, length := bytesused, dmafd := -1,
    flags := v.flags, timestamp := v.timestamp, inner := v }

/-- struct V4L2BufferGroup from src/common/v4l2_utils.h. -/
structure V4L2BufferGroup where
  fd : Int := -1
  num_planes : Nat := 0
  num_buffers : Nat := 0
  has_dmafd : Bool := false
  buffers : List V4L2Buffer := []
  type : BufType := .videoCapture
  memory : MemoryType := .mmap
deriving DecidableEq, Repr

/-- Environment for V4L2Util::MMap: the responses of VIDIOC_QUERYBUF,
VIDIOC_EXPBUF and mmap.  `querybuf i` yields per-plane (length, mem_offset)
pairs (the single-planar layout uses the first pair); `none` is an ioctl
failure.  `mmapAt i p` is the address mmap returns for plane `p` of buffer
`i`, `none` standing for MAP_FAILED. -/
structure MmapEnv where
  querybuf : Nat → Option (List (Nat × Nat))
  expbuf : Nat → Option Int
  mmapAt : Nat → Nat → Option Nat

/-- State threaded through the MMap loop: the buffers vector of the group
being mapped, and the ghost list of (buffer, plane) pairs whose kernel
memory is currently mapped into the process (updated at each mmap/munmap). -/
structure MmapState where
  buffers : List V4L2Buffer
  mapped : List (Nat × Nat)
deriving DecidableEq, Repr

/-- The inner plane loop of V4L2Util::MMap (v4l2_utils.cpp lines 355-373):
map plane `p`, then `p+1`, ... as long as planes remain; on MAP_FAILED,
munmap the previously mapped planes `q < p` of this buffer only and fail. -/
def mapPlanes (env : MmapEnv) (i : Nat) :
    Nat → Nat → V4L2Buffer → List (Nat × Nat) → Bool × V4L2Buffer × List (Nat × Nat)
  | _p, 0, buffer, mapped => (true, buffer, mapped)
  | p, remaining + 1, buffer, mapped =>
    let len := buffer.inner.planeLengths.getD p 0
    let buffer := { buffer with plane_length := buffer.plane_length.set p len }
    match env.mmapAt i p with
    | none =>
      let cleaned := (List.range p).foldl
        (fun (acc : V4L2Buffer × List (Nat × Nat)) q =>
          ({ acc.1 with plane_start := acc.1.plane_start.set q none },
           acc.2.erase (i, q)))
        (buffer, mapped)
      (false, cleaned.1, cleaned.2)
    | some addr =>
      let buffer := { buffer with plane_start := buffer.plane_start.set p (some addr) }
      mapPlanes env i (p + 1) remaining buffer (mapped ++ [(i, p)])

/-- One iteration of the buffer loop of V4L2Util::MMap: query the layout of
buffer `i`, optionally export its DMA fd, then map its planes (multiplanar)
or its single region. -/
def mmapOneBuffer (env : MmapEnv) (typ : BufType) (num_planes : Nat) (has_dmafd : Bool)
    (i : Nat) (st : MmapState) : Bool × MmapState :=
  let buffer := st.buffers.getD i ({} : V4L2Buffer)
  let inner0 : V4L2InnerBuffer :=
    { buffer.inner with
      typ := typ, memory := .mmap, index := i,
      length := if typ.isMultiplanar then num_planes else 0,
      planeLengths := if typ.isMultiplanar then List.replicate num_planes 0
                      else buffer.inner.planeLengths,
      planeBytesused := if typ.isMultiplanar then List.replicate num_planes 0
                        else buffer.inner.planeBytesused }
  let buffer := { buffer with inner := inner0 }
  match env.querybuf i with
  | none => (false, { st with buffers := st.buffers.set i buffer })
  | some layout =>
    let inner :=
      if typ.isMultiplanar then
        { inner0 with
          planeLengths := layout.map Prod.fst,
          planeOffsets := layout.map Prod.snd }
      else
        { inner0 with
          length := (layout.getD 0 (0, 0)).1,
          offset := (layout.getD 0 (0, 0)).2 }
    let buffer := { buffer with inner := inner }
    let exported : Option V4L2Buffer :=
      if has_dmafd then
        match env.expbuf i with
        | none => none
        | some fd => some { buffer with dmafd := fd }
      else some buffer
    match exported with
    | none => (false, { st with buffers := st.buffers.set i buffer })
    | some buffer =>
      if typ.isMultiplanar then
        match mapPlanes env i 0 num_planes buffer st.mapped with
        | (false, buffer, mapped) =>
          (false, { buffers := st.buffers.set i buffer, mapped := mapped })
        | (true, buffer, mapped) =>
          let buffer := { buffer with
                          start := buffer.plane_start.getD 0 none,
                          length := buffer.plane_length.getD 0 0 }
          (true, { buffers := st.buffers.set i buffer, mapped := mapped })
      else
        let buffer := { buffer with length := buffer.inner.length }
        match env.mmapAt i 0 with
        | none =>
          let buffer := { buffer with start := none }
          (false, { st with buffers := st.buffers.set i buffer })
        | some addr =>
          let buffer := { buffer with start := some addr }
          (true, { buffers := st.buffers.set i buffer, mapped := st.mapped ++ [(i, 0)] })

/-- The buffer loop of V4L2Util::MMap, starting at buffer index `i` with
`remaining` buffers still to process. -/
def mmapBuffers (env : MmapEnv) (typ : BufType) (num_planes : Nat) (has_dmafd : Bool) :
    Nat → Nat → MmapState → Bool × MmapState
  | _i, 0, st => (true, st)
  | i, remaining + 1, st =>
    match mmapOneBuffer env typ num_planes has_dmafd i st with
    | (false, st) => (false, st)
    | (true, st) => mmapBuffers env typ num_planes has_dmafd (i + 1) remaining st

/-- V4L2Util::MMap (v4l2_utils.cpp lines 311-396).  Returns the success flag,
the group with its buffers vector as the C++ left it (updated in place, also
on failure), and the ghost list of still-mapped (buffer, plane) pairs. -/
def V4L2Util.MMap (env : MmapEnv) (g : V4L2BufferGroup) :
    Bool × V4L2BufferGroup × List (Nat × Nat) :=
  let r := mmapBuffers env g.type g.num_planes g.has_dmafd 0 g.num_buffers
    { buffers := g.buffers, mapped := [] }
  (r.1, { g with buffers := r.2.buffers }, r.2.mapped)

/-- std::vector::resize on the buffers vector: truncate or pad with
default-constructed V4L2Buffers. -/
def resizeBuffers (bufs : List V4L2Buffer) (n : Nat) : List V4L2Buffer :=
  bufs.take n ++ List.replicate (n - bufs.length) ({} : V4L2Buffer)

/-- Environment for V4L2Util::AllocateBuffer: `reqbufs c` is the outcome of
VIDIOC_REQBUFS when `c` buffers are requested — `none` when the ioctl fails,
`some granted` when it succeeds and the driver writes `granted` back into
req.count. -/
structure AllocEnv where
  reqbufs : Nat → Option Nat
  mmapEnv : MmapEnv

/-- V4L2Util::AllocateBuffer (v4l2_utils.cpp lines 398-434).  Sets the group
count and resizes the vector to the requested count, issues VIDIOC_REQBUFS,
and then — without ever reading the granted count back from req.count —
either memory-maps the buffers (MMAP) or initializes the per-buffer
descriptors (DMABUF). -/
def V4L2Util.AllocateBuffer (env : AllocEnv) (g : V4L2BufferGroup) (num_buffers : Nat) :
    Bool × V4L2BufferGroup × List (Nat × Nat) :=
  let g := { g with num_buffers := num_buffers,
                    buffers := resizeBuffers g.buffers num_buffers }
  match env.reqbufs num_buffers with
  | none => (false, g, [])
  | some _granted =>
    match g.memory with
    | .mmap => V4L2Util.MMap env.mmapEnv g
    | .dmabuf =>
      let bufs := (List.range num_buffers).foldl
        (fun (bufs : List V4L2Buffer) i =>
          let buffer := bufs.getD i ({} : V4L2Buffer)
          let inner := { buffer.inner with
                         typ := g.type, memory := MemoryType.dmabuf, index := i,
                         length := if g.type.isMultiplanar then g.num_planes else 1 }
          bufs.set i { buffer with inner := inner })
        g.buffers
      (true, { g with buffers := bufs }, [])

/-- V4L2Util::UnMap (v4l2_utils.cpp lines 282-309): close exported DMA fds
and unmap every non-null plane (multiplanar) or region (single-planar) of
every buffer of the group, nulling the pointers. -/
def V4L2Util.UnMap (g : V4L2BufferGroup) : V4L2BufferGroup :=
  let bufs := g.buffers.map (fun b =>
    if g.type.isMultiplanar then
      { b with plane_start := b.plane_start.map (fun _ => none) }
    else
      { b with start := none })
  { g with buffers := bufs }

/-- V4L2Util::DeallocateBuffer (v4l2_utils.cpp lines 436-455): unmap when
memory-mapped, release the reservation with a zero-count VIDIOC_REQBUFS
(`reqOk` is its outcome), then reset fd and has_dmafd. -/
def V4L2Util.DeallocateBuffer (reqOk : Bool) (g : V4L2BufferGroup) : Bool × V4L2BufferGroup :=
  let g := if g.memory = MemoryType.mmap then V4L2Util.UnMap g else g
  if !reqOk then (false, g)
  else (true, { g with fd := 0, has_dmafd := false })

/-- V4L2FrameBuffer, src/common/v4l2_frame_buffer.cpp.  `data` models the
owned memory block `data_` (none for zero-copy frames built directly from a
V4L2Buffer); `buffer` is the member `buffer_`. -/
structure V4L2FrameBuffer where
  width : Nat := 0
  height : Nat := 0
  format : Nat := 0
  size : Nat := 0
  flags : Nat := 0
  timestamp : Timeval := ⟨0, 0⟩
  buffer : V4L2Buffer := {}
  data : Option (List Nat) := none
deriving DecidableEq, Repr

/-- V4L2FrameBuffer::Create(width, height, buffer)
(v4l2_frame_buffer.cpp lines 19-39): copies format, size, flags and
timestamp out of the V4L2Buffer and stores the buffer itself; no owned
memory is allocated. -/
def V4L2FrameBuffer.Create (width height : Nat) (buffer : V4L2Buffer) : V4L2FrameBuffer :=
  { width := width, height := height, format := buffer.pix_fmt, size := buffer.length,
    flags := buffer.flags, timestamp := buffer.timestamp, buffer := buffer, data := none }

/-- V4L2FrameBuffer::GetRawBuffer (v4l2_frame_buffer.cpp line 203): returns
the member `buffer_` BY VALUE — callers receive a copy, so writing a field
of the returned object does not modify the frame buffer. -/
def V4L2FrameBuffer.GetRawBuffer (fb : V4L2FrameBuffer) : V4L2Buffer := fb.buffer

/-- V4L2FrameBuffer::GetDmaFd (v4l2_frame_buffer.cpp line 216). -/
def V4L2FrameBuffer.GetDmaFd (fb : V4L2FrameBuffer) : Int := fb.buffer.dmafd

/-!
The M2M codec pipeline, src/codecs/v4l2/v4l2_codec.cpp.
-/

/-- Modelled from the spec: the container type of `output_buffer_index_` and
`capturing_tasks_` is declared in the header v4l2_codec.h, which is not under
src/; section 9 of the spec fixes its semantics as a double-ended queue used
strictly append/pop-front, whose pop returns an optional that is empty when
the queue is empty. -/
abbrev Queue (α : Type) := List α

/-- Append an element at the back of the queue. -/
def Queue.push {α : Type} (q : Queue α) (x : α) : Queue α := q ++ [x]

/-- Remove and return the front element; on an empty queue return none and
leave the queue empty. -/
def Queue.pop {α : Type} : Queue α → Option α × Queue α
  | [] => (none, [])
  | x :: xs => (some x, xs)

/-- The fields of V4L2Codec relevant to submission, completion matching and
event handling: the two buffer groups, the output free pool
`output_buffer_index_`, the pending-callback queue `capturing_tasks_`, and
the format/geometry members.  `τ` is the type of completion callbacks,
treated as opaque values. -/
structure CodecState (τ : Type) where
  output : V4L2BufferGroup := {}
  capture : V4L2BufferGroup := {}
  output_buffer_index : Queue Nat := []
  capturing_tasks : Queue τ := []
  width : Nat := 0
  height : Nat := 0
  dst_fmt : Nat := 0
deriving DecidableEq, Repr

/-- Device-facing operations performed by the codec pipeline, collected as a
trace so theorems can state which ioctls an execution did or did not issue. -/
inductive CodecOp
  | selectWait
  | memcpyToOutput (index size : Nat)
  | qbufOutput (index : Nat) (ok : Bool)
  | dqbufOutput (ok : Bool) (index : Nat)
  | dqbufCapture (ok : Bool) (index : Nat)
  | qbufCapture (index : Nat) (ok : Bool)
  | streamOff (t : BufType)
  | streamOn (t : BufType)
  | reqbufs (t : BufType) (count : Nat)
deriving DecidableEq, Repr

/-- V4L2Codec::EmplaceBuffer (v4l2_codec.cpp lines 126-151).  `qbufOk` is the
outcome of the VIDIOC_QBUF on the output stream.  Pops a free output
descriptor (no-op when the pool is empty), attaches the frame by DMA fd or
by memcpy, queues the descriptor, and on success appends `on_capture` to the
pending-task queue; on queue failure the index is pushed back onto the free
pool. -/
def V4L2Codec.EmplaceBuffer {τ : Type} (s : CodecState τ) (buffer : V4L2FrameBuffer)
    (qbufOk : Bool) (on_capture : τ) : CodecState τ × List CodecOp :=
  match Queue.pop s.output_buffer_index with
  | (none, _) => (s, [])
  | (some index, rest) =>
    let s := { s with output_buffer_index := rest }
    let s :=
      if s.output.memory = MemoryType.dmabuf then
        let ob := s.output.buffers.getD index ({} : V4L2Buffer)
        let inner := { ob.inner with
                       planeFds := ob.inner.planeFds.set 0 buffer.buffer.dmafd,
                       planeBytesused := ob.inner.planeBytesused.set 0 buffer.size,
                       planeLengths := ob.inner.planeLengths.set 0 buffer.size }
        { s with output := { s.output with
                             buffers := s.output.buffers.set index { ob with inner := inner } } }
      else s
    let copyOps : List CodecOp :=
      if s.output.memory = MemoryType.dmabuf then []
      else [CodecOp.memcpyToOutput index buffer.size]
    if qbufOk then
      ({ s with capturing_tasks := Queue.push s.capturing_tasks on_capture },
       copyOps ++ [CodecOp.qbufOutput index true])
    else
      ({ s with output_buffer_index := Queue.push s.output_buffer_index index },
       copyOps ++ [CodecOp.qbufOutput index false])

/-- Environment for V4L2Util::SetFormat: `g_fmt` is the format VIDIOC_G_FMT
reports (width, height, pixelformat, num_planes); `s_fmt` maps the format
passed to VIDIOC_S_FMT to the format the driver writes back (the driver may
adjust it), `none` being an ioctl failure. -/
structure FormatEnv where
  g_fmt : Nat × Nat × Nat × Nat
  s_fmt : Nat × Nat × Nat → Option (Nat × Nat × Nat × Nat)

/-- Outcome of V4L2Util::SetFormat.  `threw` records the
std::runtime_error thrown when the driver geometry differs from the
requested width/height (v4l2_utils.cpp lines 194-198 and 223-227);
`pixel_format` is the by-reference out-parameter. -/
structure SetFormatResult where
  threw : Bool
  ok : Bool
  group : V4L2BufferGroup
  pixel_format : Nat
deriving DecidableEq, Repr

/-- V4L2Util::SetFormat (v4l2_utils.cpp lines 159-231).  Reads the current
format, overwrites geometry and pixel format only when both requested
dimensions are positive, issues VIDIOC_S_FMT, stores the returned pixel
format and plane count, and finally compares the returned geometry against
the REQUESTED width/height unconditionally — throwing when they differ,
which with a 0x0 request is every time the driver reports a real size. -/
def V4L2Util.SetFormat (env : FormatEnv) (g : V4L2BufferGroup)
    (width height pixel_format : Nat) : SetFormatResult :=
  let (w0, h0, f0, _p0) := env.g_fmt
  let req := if width > 0 && height > 0 then (width, height, pixel_format) else (w0, h0, f0)
  match env.s_fmt req with
  | none => { threw := false, ok := false, group := g, pixel_format := pixel_format }
  | some (w1, h1, f1, p1) =>
    let g := { g with num_planes := if g.type.isMultiplanar then p1 else 1 }
    if w1 ≠ width ∨ h1 ≠ height then
      { threw := true, ok := false, group := g, pixel_format := f1 }
    else
      { threw := false, ok := true, group := g, pixel_format := f1 }

/-- The two device events V4L2Codec::HandleEvent consumes. -/
inductive CodecEvent
  | sourceChange
  | eos
deriving DecidableEq, Repr

/-- How an execution of the event handler terminates the process:
the uncaught runtime error thrown by SetFormat, or the exit(EXIT_FAILURE)
on an end-of-stream event. -/
inductive CrashCause
  | frameSizeMismatch
  | eosExit
deriving DecidableEq, Repr

/-- Environment for the source-change branch of V4L2Codec::HandleEvent:
outcome of the zero-count VIDIOC_REQBUFS inside DeallocateBuffer, the
format negotiation environment, and the allocation environment. -/
structure SrcChangeEnv where
  deallocReqOk : Bool
  fmt : FormatEnv
  alloc : AllocEnv

/-- Result of running the event handler (or a whole completion-loop
iteration): possible process termination, the resulting codec state, and
the trace of device operations issued. -/
structure EventResult (τ : Type) where
  crashed : Option CrashCause := none
  state : CodecState τ
  ops : List CodecOp := []

/-- The V4L2_EVENT_SOURCE_CHANGE case of V4L2Codec::HandleEvent
(v4l2_codec.cpp lines 90-97): stream off the capture direction, deallocate
the capture group, renegotiate the format with width = height = 0, allocate
`capture_.buffers.size()` buffers again, stream back on.  Return values of
the intermediate calls are discarded, but the runtime error thrown by
SetFormat propagates (and, on the worker thread, terminates the process).
No call queues the reallocated capture buffers back to the device. -/
def V4L2Codec.HandleSourceChange {τ : Type} (env : SrcChangeEnv) (s : CodecState τ) :
    EventResult τ :=
  let cap0 := s.capture
  let ops1 := [CodecOp.streamOff cap0.type, CodecOp.reqbufs cap0.type 0]
  let dr := V4L2Util.DeallocateBuffer env.deallocReqOk cap0
  let cap1 := dr.2
  let fr := V4L2Util.SetFormat env.fmt cap1 0 0 s.dst_fmt
  if fr.threw then
    { crashed := some CrashCause.frameSizeMismatch,
      state := { s with capture := fr.group, dst_fmt := fr.pixel_format },
      ops := ops1 }
  else
    let s := { s with capture := fr.group, dst_fmt := fr.pixel_format }
    let count := s.capture.buffers.length
    let ar := V4L2Util.AllocateBuffer env.alloc s.capture count
    let s := { s with capture := ar.2.1 }
    { crashed := none, state := s,
      ops := ops1 ++ [CodecOp.reqbufs s.capture.type count, CodecOp.streamOn s.capture.type] }

/-- V4L2Codec::HandleEvent (v4l2_codec.cpp lines 86-104): drain the pending
device events; a source-change event runs the capture-group reallocation
sequence, an end-of-stream event calls exit(EXIT_FAILURE). -/
def V4L2Codec.HandleEvent {τ : Type} (env : SrcChangeEnv) (events : List CodecEvent)
    (s : CodecState τ) : EventResult τ :=
  match events with
  | [] => { crashed := none, state := s, ops := [] }
  | ev :: rest =>
    match ev with
    | CodecEvent.eos => { crashed := some CrashCause.eosExit, state := s, ops := [] }
    | CodecEvent.sourceChange =>
      let r := V4L2Codec.HandleSourceChange env s
      match r.crashed with
      | some c => { crashed := some c, state := r.state, ops := r.ops }
      | none =>
        let r2 := V4L2Codec.HandleEvent env rest r.state
        { crashed := r2.crashed, state := r2.state, ops := r.ops ++ r2.ops }

/-- The v4l2_buffer returned by VIDIOC_DQBUF on the capture stream of the
codec: buffer index, planes[0].bytesused and flags. -/
structure CapRes where
  index : Nat := 0
  bytesused : Nat := 0
  flags : Nat := 0
deriving DecidableEq, Repr

/-- The result Frame Buffer built by V4L2Codec::CaptureBuffer (v4l2_codec.cpp
lines 216-219): FromCapturedPlane over the dequeued capture buffer followed
by V4L2FrameBuffer::Create. -/
def V4L2Codec.completionFrame {τ : Type} (s : CodecState τ) (cap : CapRes) : V4L2FrameBuffer :=
  let cb := s.capture.buffers.getD cap.index ({} : V4L2Buffer)
  V4L2FrameBuffer.Create s.width s.height
    (V4L2Buffer.FromCapturedPlane cb.start cap.bytesused cb.dmafd cap.flags s.dst_fmt)

/-- Placeholder mmap environment for contexts whose scenario never reaches
the allocator. -/
def dummyMmapEnv : MmapEnv :=
  { querybuf := fun _ => none, expbuf := fun _ => none, mmapAt := fun _ _ => none }

/-- Placeholder source-change environment for scenarios without exception
readiness. -/
def dummySrcEnv : SrcChangeEnv :=
  { deallocReqOk := true,
    fmt := { g_fmt := (0, 0, 0, 0), s_fmt := fun _ => none },
    alloc := { reqbufs := fun _ => none, mmapEnv := dummyMmapEnv } }

/-- Per-iteration environment of the codec completion loop
V4L2Codec::CaptureBuffer: the three successive reads of the atomic abort
flag (entry, after select, after building the frame), the select outcome
and how long it blocked, data/exception readiness, the two dequeue results,
the capture requeue outcome and the pending device events. -/
structure CodecLoopEnv where
  abortAtEntry : Bool := false
  selectR : Int := 1
  selectDelayUsec : Nat := 0
  abortAfterSelect : Bool := false
  rdReady : Bool := true
  exReady : Bool := false
  dqOutput : Option Nat := none
  dqCapture : Option CapRes := none
  abortAfterFrame : Bool := false
  qbufCaptureOk : Bool := true
  events : List CodecEvent := []
  srcEnv : SrcChangeEnv := dummySrcEnv

/-- Result of one iteration of the completion loop: the bool
V4L2Codec::CaptureBuffer returns, the updated state, the device-operation
trace, the callbacks invoked (with the frame each received), and whether the
iteration terminated the process via HandleEvent. -/
structure CBRes (τ : Type) where
  ret : Bool
  state : CodecState τ
  ops : List CodecOp := []
  invoked : List (τ × V4L2FrameBuffer) := []
  crashed : Option CrashCause := none

/-- The data-readiness branch of V4L2Codec::CaptureBuffer (v4l2_codec.cpp
lines 178-234): dequeue one output-stream buffer (index back to the free
pool), dequeue one capture-stream buffer, build the result frame, re-check
the abort flag, pop the oldest pending task and invoke it with the frame,
then requeue the capture buffer.  The first component is false when the
branch returned early (CaptureBuffer then returns false). -/
def V4L2Codec.captureRdBranch {τ : Type} (s : CodecState τ) (env : CodecLoopEnv) :
    Bool × CBRes τ :=
  match env.dqOutput with
  | none => (false, { ret := false, state := s, ops := [CodecOp.dqbufOutput false 0] })
  | some oIdx =>
    let s := { s with output_buffer_index := Queue.push s.output_buffer_index oIdx }
    let opsA := [CodecOp.dqbufOutput true oIdx]
    match env.dqCapture with
    | none => (false, { ret := false, state := s,
                        ops := opsA ++ [CodecOp.dqbufCapture false 0] })
    | some cap =>
      let opsB := opsA ++ [CodecOp.dqbufCapture true cap.index]
      let frame := V4L2Codec.completionFrame s cap
      if env.abortAfterFrame then
        (false, { ret := false, state := s, ops := opsB })
      else
        let pr := Queue.pop s.capturing_tasks
        let s := { s with capturing_tasks := pr.2 }
        let inv := match pr.1 with
          | some t => [(t, frame)]
          | none => []
        if env.qbufCaptureOk then
          (true, { ret := true, state := s,
                   ops := opsB ++ [CodecOp.qbufCapture cap.index true], invoked := inv })
        else
          (false, { ret := false, state := s,
                    ops := opsB ++ [CodecOp.qbufCapture cap.index false], invoked := inv })

/-- V4L2Codec::CaptureBuffer (v4l2_codec.cpp lines 153-242): check abort,
select with a 200 ms timeout on the data and exception fd sets, check abort
again, bail out on select failure or timeout, run the data branch when the
fd is readable, then drain events when the exception fd is set. -/
def V4L2Codec.CaptureBuffer {τ : Type} (s : CodecState τ) (env : CodecLoopEnv) : CBRes τ :=
  if env.abortAtEntry then { ret := false, state := s }
  else
    let ops0 := [CodecOp.selectWait]
    if env.abortAfterSelect then { ret := false, state := s, ops := ops0 }
    else if env.selectR ≤ 0 then { ret := false, state := s, ops := ops0 }
    else
      let rd := if env.rdReady then V4L2Codec.captureRdBranch s env
                else (true, { ret := true, state := s })
      let r := { rd.2 with ops := ops0 ++ rd.2.ops }
      if !rd.1 then r
      else if env.exReady then
        let er := V4L2Codec.HandleEvent env.srcEnv env.events r.state
        { ret := true, state := er.state, ops := r.ops ++ er.ops,
          invoked := r.invoked, crashed := er.crashed }
      else { r with ret := true }

/-- The select timeout of both worker loops: tv_usec = 200000. -/
def captureWaitTimeoutUsec : Nat := 200000

/-- Wall-clock time one completion-loop iteration spends blocked, in
microseconds: zero when the abort flag was already set at entry, otherwise
the select wait, which the kernel bounds by the 200 ms timeout. -/
def captureElapsedUsec (env : CodecLoopEnv) : Nat :=
  if env.abortAtEntry then 0 else min env.selectDelayUsec captureWaitTimeoutUsec

/-!
The capture driver loop, src/capturer/v4l2_capturer.cpp.
-/

/-- V4L2Capturer::IsCompressedFormat (v4l2_capturer.cpp lines 127-129). -/
def V4L2Capturer.IsCompressedFormat (format : Nat) : Bool :=
  format == V4L2_PIX_FMT_MJPEG || format == V4L2_PIX_FMT_H264

/-- The members of V4L2Capturer that the capture loop reads and writes. -/
structure CapturerState where
  has_first_keyframe : Bool := false
  decoderCreated : Bool := false
  frame_buffer : Option V4L2FrameBuffer := none
deriving DecidableEq, Repr

/-- Per-iteration environment of V4L2Capturer::CaptureImage: the select
outcome and the VIDIOC_DQBUF result (the dequeued v4l2_buffer, none on
failure), plus the outcome of the final VIDIOC_QBUF. -/
structure CaptureImageEnv where
  selectR : Int := 1
  dq : Option V4L2InnerBuffer := none
  qbufOk : Bool := true

/-- Device operations of one capture-loop iteration. -/
inductive CapOp
  | selectWait
  | dqbuf (ok : Bool)
  | qbuf (index : Nat) (ok : Bool)
deriving DecidableEq, Repr

/-- Where the dequeued frame went in one iteration of the capture loop. -/
inductive CapAction
  | published (f : V4L2FrameBuffer)
  | handedToDecoder (f : V4L2FrameBuffer)
  | dropped
deriving DecidableEq, Repr

/-- V4L2Capturer::CaptureImage (v4l2_capturer.cpp lines 155-237): select
with a 200 ms timeout, dequeue one buffer, copy the multiplanar plane info,
build the borrowed V4L2Buffer and, for a hardware-decoded H264 stream,
recompute `has_first_keyframe_` from THIS buffer's keyframe flag and return
(without requeuing) when it is clear; otherwise create the frame buffer,
hand it to the decoder (compressed + hw accel) or publish it, and requeue
the dequeued buffer. -/
def V4L2Capturer.CaptureImage (hw_accel : Bool) (format : Nat) (width height : Nat)
    (capture : V4L2BufferGroup) (st : CapturerState) (env : CaptureImageEnv) :
    CapturerState × List CapOp × Option CapAction :=
  if env.selectR ≤ 0 then (st, [CapOp.selectWait], none)
  else
    match env.dq with
    | none => (st, [CapOp.selectWait, CapOp.dqbuf false], none)
    | some dqb =>
      let cap_buffer := capture.buffers.getD dqb.index ({} : V4L2Buffer)
      let cap_buffer :=
        if capture.type = BufType.videoCaptureMplane then
          { cap_buffer with plane_bytesused := dqb.planeBytesused }
        else cap_buffer
      let buffer := V4L2Buffer.FromV4L2 cap_buffer.start dqb format
      let buffer :=
        if capture.type = BufType.videoCaptureMplane then
          { buffer with
            plane_start := cap_buffer.plane_start,
            plane_length := cap_buffer.plane_length,
            plane_bytesused := cap_buffer.plane_bytesused }
        else buffer
      let gate := hw_accel && (format == V4L2_PIX_FMT_H264)
      let hasKeyframe := (buffer.flags &&& V4L2_BUF_FLAG_KEYFRAME) != 0
      let st := if gate then { st with has_first_keyframe := hasKeyframe } else st
      if gate && !hasKeyframe then
        (st, [CapOp.selectWait, CapOp.dqbuf true], some CapAction.dropped)
      else
        let frame := V4L2FrameBuffer.Create width height buffer
        let st := { st with frame_buffer := some frame }
        let (st, action) :=
          if hw_accel && V4L2Capturer.IsCompressedFormat format then
            ({ st with decoderCreated := true }, CapAction.handedToDecoder frame)
          else
            (st, CapAction.published frame)
        (st, [CapOp.selectWait, CapOp.dqbuf true, CapOp.qbuf dqb.index env.qbufOk],
         some action)

/-- Run V4L2Capturer::CaptureImage over a list of per-iteration
environments, collecting each iteration's routing outcome. -/
def captureRun (hw_accel : Bool) (format : Nat) (width height : Nat)
    (capture : V4L2BufferGroup) (st : CapturerState) :
    List CaptureImageEnv → CapturerState × List (Option CapAction)
  | [] => (st, [])
  | e :: es =>
    let r := V4L2Capturer.CaptureImage hw_accel format width height capture st e
    let rest := captureRun hw_accel format width height capture r.1 es
    (rest.1, r.2.2 :: rest.2)

/-- The completion callback the capture loop passes to the decoder
(v4l2_capturer.cpp lines 225-229): it assigns the captured buffer's
timestamp to `decoded_buffer->GetRawBuffer().timestamp` — but GetRawBuffer
returns `buffer_` by value, so the assignment mutates a discarded temporary
copy — and then publishes `decoded_buffer` itself to the subscribers. -/
def V4L2Capturer.decodeCompletionPublish (buffer : V4L2Buffer)
    (decoded_buffer : V4L2FrameBuffer) : V4L2FrameBuffer :=
  let _temporary := { decoded_buffer.GetRawBuffer with timestamp := buffer.timestamp }
  decoded_buffer

/-!
System model for the codec pipeline fed by an in-order device: the device
completes output-stream and capture-stream dequeues in exactly the order the
output buffers were queued (the ordering assumption stated by the spec).
-/

/-- System state: the codec, the indices queued to the device's output
stream that the device has not completed yet (oldest first), the
capture-stream completions the device will deliver (oldest first), and the
log of completion-callback invocations. -/
structure SysState (τ : Type) where
  codec : CodecState τ
  devOutQueued : List Nat := []
  devCapPending : List CapRes := []
  invoked : List (τ × V4L2FrameBuffer) := []

/-- Collect the output-stream buffer indices successfully queued to the
device by a trace of codec operations. -/
def applyOps (dev : List Nat) (ops : List CodecOp) : List Nat :=
  ops.foldl
    (fun d op =>
      match op with
      | CodecOp.qbufOutput i true => d ++ [i]
      | _ => d)
    dev

/-- One submission: V4L2Codec::EmplaceBuffer with the device accepting the
queue operation; the queued index joins the device's output queue. -/
def sysSubmit {τ : Type} (s : SysState τ) (frame : V4L2FrameBuffer) (t : τ) : SysState τ :=
  let r := V4L2Codec.EmplaceBuffer s.codec frame true t
  { s with codec := r.1, devOutQueued := applyOps s.devOutQueued r.2 }

/-- Submit a list of (frame, callback) pairs in order. -/
def sysSubmitAll {τ : Type} (s : SysState τ) : List (V4L2FrameBuffer × τ) → SysState τ
  | [] => s
  | (f, t) :: rest => sysSubmitAll (sysSubmit s f t) rest

/-- The completion-loop iteration environment produced by the in-order
device: data ready, no abort, no exception, and the two dequeues return the
oldest queued output index and the oldest pending capture completion. -/
def inOrderEnv {τ : Type} (s : SysState τ) : CodecLoopEnv :=
  { dqOutput := s.devOutQueued.head?, dqCapture := s.devCapPending.head? }

/-- One completion-loop iteration against the in-order device: the device
retires the oldest output completion and the oldest capture completion. -/
def sysCompleteStep {τ : Type} (s : SysState τ) : SysState τ :=
  let r := V4L2Codec.CaptureBuffer s.codec (inOrderEnv s)
  { codec := r.state,
    devOutQueued := s.devOutQueued.tail,
    devCapPending := s.devCapPending.tail,
    invoked := s.invoked ++ r.invoked }

/-- Run `n` completion-loop iterations. -/
def sysCompleteN {τ : Type} (s : SysState τ) : Nat → SysState τ
  | 0 => s
  | n + 1 => sysCompleteN (sysCompleteStep s) n

/-!
Classifiers over operation traces and routing outcomes, and concrete
fixtures used by the example scenarios.
-/

/-- Is the operation a successful VIDIOC_QBUF on the output stream? -/
def isQbufOutputSuccess : CodecOp → Bool
  | CodecOp.qbufOutput _ true => true
  | _ => false

/-- Was a VIDIOC_QBUF on the codec capture stream issued? -/
def isQbufCaptureOp : CodecOp → Bool
  | CodecOp.qbufCapture _ _ => true
  | _ => false

/-- Was a VIDIOC_STREAMON issued? -/
def isStreamOnOp : CodecOp → Bool
  | CodecOp.streamOn _ => true
  | _ => false

/-- Did a capture-loop iteration forward its buffer (publish it or hand it
to the decoder), as opposed to dropping it or doing nothing? -/
def isForwarded : Option CapAction → Bool
  | some (CapAction.published _) => true
  | some (CapAction.handedToDecoder _) => true
  | _ => false

/-- Was the dequeued buffer requeued to the device (the final VIDIOC_QBUF of
V4L2Capturer::CaptureImage)? -/
def isRequeueOp : CapOp → Bool
  | CapOp.qbuf _ _ => true
  | _ => false

/-- All planes of all buffers below index `i`, the ghost mapped set after
`i` buffers of an `np`-plane group have been mapped successfully. -/
def allPlanesOf (i np : Nat) : List (Nat × Nat) :=
  (List.range i).flatMap (fun j => (List.range np).map (fun q => (j, q)))

/-- Fixture: mmap environment over a two-buffer two-plane group in which
every mmap succeeds except plane 1 of buffer 1. -/
def egMmapEnv2x2 : MmapEnv :=
  { querybuf := fun _ => some [(100, 0), (100, 4096)],
    expbuf := fun _ => some 7,
    mmapAt := fun i p => if i == 1 && p == 1 then none else some (4096 * (2 * i + p + 1)) }

/-- Fixture: a two-buffer, two-plane, memory-mapped multiplanar capture
group about to be mapped. -/
def egGroup2x2 : V4L2BufferGroup :=
  { type := BufType.videoCaptureMplane, memory := MemoryType.mmap,
    num_planes := 2, num_buffers := 2,
    buffers := List.replicate 2 ({} : V4L2Buffer) }

/-- Fixture: allocation environment whose VIDIOC_REQBUFS succeeds but grants
only 2 buffers whatever count is requested. -/
def egAllocEnvGrant2 : AllocEnv :=
  { reqbufs := fun _ => some 2, mmapEnv := dummyMmapEnv }

/-- Fixture: a DMA-buffer output group, as used by the codec pipeline when
fed zero-copy frames. -/
def egDmabufGroup : V4L2BufferGroup :=
  { type := BufType.videoOutputMplane, memory := MemoryType.dmabuf, num_planes := 1 }

/-- Fixture: the codec state of a streaming H264 decoder with a four-buffer
memory-mapped capture group. -/
def egDecoderState : CodecState Nat :=
  { output := { type := BufType.videoOutputMplane, memory := MemoryType.dmabuf,
                num_planes := 1, num_buffers := 4,
                buffers := List.replicate 4 ({} : V4L2Buffer) },
    capture := { type := BufType.videoCaptureMplane, memory := MemoryType.mmap,
                 num_planes := 1, num_buffers := 4,
                 buffers := List.replicate 4 ({ start := some 4096 } : V4L2Buffer) },
    output_buffer_index := [0, 1, 2, 3],
    width := 640, height := 480, dst_fmt := V4L2_PIX_FMT_NV12 }

/-- Fixture: a device whose current decoded format is 640x480 NV12 with one
plane, and whose VIDIOC_S_FMT keeps the geometry and plane count while
accepting the requested pixel format. -/
def egSrcChangeEnv : SrcChangeEnv :=
  { deallocReqOk := true,
    fmt := { g_fmt := (640, 480, V4L2_PIX_FMT_NV12, 1),
             s_fmt := fun r => some (640, 480, r.2.2, 1) },
    alloc := { reqbufs := fun _ => some 4,
               mmapEnv := { querybuf := fun _ => some [(100, 0)],
                            expbuf := fun _ => some 7,
                            mmapAt := fun _ _ => some 4096 } } }

/-- Fixture: a single-planar capture group of the capture driver. -/
def egCaptureGroup : V4L2BufferGroup :=
  { type := BufType.videoCapture, memory := MemoryType.mmap,
    num_planes := 1, num_buffers := 4,
    buffers := List.replicate 4 ({ start := some 4096 } : V4L2Buffer) }

/-- Fixture: a dequeued keyframe-flagged H264 buffer. -/
def egDqKeyframe : V4L2InnerBuffer :=
  { typ := BufType.videoCapture, index := 0, bytesused := 500,
    flags := V4L2_BUF_FLAG_KEYFRAME, timestamp := ⟨5, 100⟩ }

/-- Fixture: a dequeued delta (non-keyframe) H264 buffer. -/
def egDqDelta : V4L2InnerBuffer :=
  { typ := BufType.videoCapture, index := 1, bytesused := 300,
    flags := 0, timestamp := ⟨5, 200⟩ }

/-- The complete FIFO scenario of the spec: starting from codec state `c`
with an idle device, submit `subs` in order, then run one completion-loop
iteration per submission against the in-order device delivering `caps`. -/
def fifoScenario {τ : Type} (c : CodecState τ) (subs : List (V4L2FrameBuffer × τ))
    (caps : List CapRes) : SysState τ :=
  sysCompleteN
    (sysSubmitAll { codec := c, devOutQueued := [], devCapPending := caps, invoked := [] } subs)
    subs.length

/-- Fixture: a captured compressed buffer carrying a real timestamp. -/
def egOrigBuffer : V4L2Buffer :=
  { timestamp := ⟨5, 100⟩, flags := V4L2_BUF_FLAG_KEYFRAME, length := 500 }

/-- Fixture: the decoded frame the codec completion loop builds for the
first capture buffer. -/
def egDecoded : V4L2FrameBuffer :=
  V4L2Codec.completionFrame egDecoderState { index := 0, bytesused := 100 }

/-- Fixture: a zero-copy frame submitted to the codec. -/
def egFrame : V4L2FrameBuffer := { size := 100, buffer := { dmafd := 9 } }

/-- Fixture: three submissions with distinct markers. -/
def egSubs : List (V4L2FrameBuffer × Nat) := [(egFrame, 10), (egFrame, 11), (egFrame, 12)]

/-- Fixture: the three capture completions the in-order device delivers. -/
def egCaps : List CapRes :=
  [{ index := 0, bytesused := 10 }, { index := 1, bytesused := 20 },
   { index := 2, bytesused := 30 }]

/-!
Theorems.
-/

/-- C7: every call to V4L2Codec::EmplaceBuffer made while the output free
pool is empty is a no-op — the codec state (free pool, pending-task queue,
buffer groups) is returned unchanged and no device operation is issued, so
no buffer is queued and no completion callback is enqueued. -/
theorem emplaceBuffer_empty_pool_noop {τ : Type} (s : CodecState τ)
    (buffer : V4L2FrameBuffer) (qbufOk : Bool) (on_capture : τ)
    (h : s.output_buffer_index = []) :
    V4L2Codec.EmplaceBuffer s buffer qbufOk on_capture = (s, []) := by
  simp [V4L2Codec.EmplaceBuffer, h, Queue.pop]

/-- Witness for C7 at a concrete empty-pool state. -/
theorem emplaceBuffer_empty_pool_noop_witness :
    ({} : CodecState Nat).output_buffer_index = [] ∧
    V4L2Codec.EmplaceBuffer ({} : CodecState Nat) ({} : V4L2FrameBuffer) true 7 = ({}, []) :=
  ⟨rfl, emplaceBuffer_empty_pool_noop {} {} true 7 rfl⟩

/-- C10: when V4L2Codec::EmplaceBuffer obtains a free descriptor but the
device rejects the VIDIOC_QBUF, the index is pushed back onto the output
free pool (so the pool holds the same indices as before, rotated to the
back), the pending-task queue is unchanged, and the operation trace holds
no successful output-queue operation. -/
theorem emplaceBuffer_qbuf_failure_restores_pool {τ : Type} (s : CodecState τ)
    (buffer : V4L2FrameBuffer) (on_capture : τ) (i : Nat) (rest : List Nat)
    (h : s.output_buffer_index = i :: rest) :
    (V4L2Codec.EmplaceBuffer s buffer false on_capture).1.capturing_tasks =
      s.capturing_tasks ∧
    (V4L2Codec.EmplaceBuffer s buffer false on_capture).1.output_buffer_index =
      rest ++ [i] ∧
    (V4L2Codec.EmplaceBuffer s buffer false on_capture).1.output_buffer_index.Perm
      s.output_buffer_index ∧
    (V4L2Codec.EmplaceBuffer s buffer false on_capture).2.all
      (fun op => !isQbufOutputSuccess op) = true := by
  by_cases hm : s.output.memory = MemoryType.dmabuf <;>
    simp [V4L2Codec.EmplaceBuffer, h, Queue.pop, Queue.push, hm, isQbufOutputSuccess]

/-- Witness for C10 at a concrete state whose free pool is [0, 1, 2, 3]. -/
theorem emplaceBuffer_qbuf_failure_restores_pool_witness :
    egDecoderState.output_buffer_index = 0 :: [1, 2, 3] ∧
    ((V4L2Codec.EmplaceBuffer egDecoderState egFrame false 5).1.capturing_tasks =
       egDecoderState.capturing_tasks ∧
     (V4L2Codec.EmplaceBuffer egDecoderState egFrame false 5).1.output_buffer_index =
       [1, 2, 3] ++ [0] ∧
     (V4L2Codec.EmplaceBuffer egDecoderState egFrame false 5).1.output_buffer_index.Perm
       egDecoderState.output_buffer_index ∧
     (V4L2Codec.EmplaceBuffer egDecoderState egFrame false 5).2.all
       (fun op => !isQbufOutputSuccess op) = true) :=
  ⟨rfl, emplaceBuffer_qbuf_failure_restores_pool egDecoderState egFrame 5 0 [1, 2, 3] rfl⟩

/-- C8 (code bug): the completion callback the capture driver hands to the
decoder is meant to restore the original capture timestamp onto the decoded
frame, but it writes through V4L2FrameBuffer::GetRawBuffer, which returns
the raw buffer by value; the write mutates a temporary and the frame
published to subscribers keeps the zero timestamp that
V4L2Buffer::FromCapturedPlane gave the decoder result.  Evaluated: a
captured buffer stamped (5 s, 100 us) is decoded, yet the published frame
carries timestamp (0, 0) in both its timestamp member and its raw buffer. -/
theorem decode_completion_timestamp_lost :
    (V4L2Capturer.decodeCompletionPublish egOrigBuffer egDecoded).timestamp = ⟨0, 0⟩ ∧
    (V4L2Capturer.decodeCompletionPublish egOrigBuffer egDecoded).buffer.timestamp = ⟨0, 0⟩ ∧
    egOrigBuffer.timestamp = ⟨5, 100⟩ ∧
    (V4L2Capturer.decodeCompletionPublish egOrigBuffer egDecoded).timestamp ≠
      egOrigBuffer.timestamp := by
  decide

/-- C3 (code bug): in the hardware-decoded H264 path the code recomputes
`has_first_keyframe_` from each dequeued buffer's own keyframe flag, so a
delta frame arriving after the first keyframe is still dropped.  Evaluated:
for the buffer sequence [keyframe, delta], the first iteration forwards the
buffer to the decoder but the second drops it, although a keyframe has
already been observed. -/
theorem keyframe_gate_drops_delta_after_keyframe :
    ((captureRun true V4L2_PIX_FMT_H264 640 480 egCaptureGroup {}
        [{ selectR := 1, dq := some egDqKeyframe },
         { selectR := 1, dq := some egDqDelta }]).2.map isForwarded = [true, false]) ∧
    ((captureRun true V4L2_PIX_FMT_H264 640 480 egCaptureGroup {}
        [{ selectR := 1, dq := some egDqKeyframe },
         { selectR := 1, dq := some egDqDelta }]).2.getD 1 none =
      some CapAction.dropped) := by
  decide

/-- C5 (code bug): when the hardware-decode H264 gate drops a non-keyframe
buffer, V4L2Capturer::CaptureImage returns before the final VIDIOC_QBUF, so
the successfully dequeued buffer is never requeued and the device pool
shrinks.  Evaluated: an iteration that dequeues a delta frame issues only
the select and the dequeue — no requeue operation appears in its trace. -/
theorem drop_path_never_requeues :
    ((V4L2Capturer.CaptureImage true V4L2_PIX_FMT_H264 640 480 egCaptureGroup {}
        { selectR := 1, dq := some egDqDelta }).2.1 =
      [CapOp.selectWait, CapOp.dqbuf true]) ∧
    ((V4L2Capturer.CaptureImage true V4L2_PIX_FMT_H264 640 480 egCaptureGroup {}
        { selectR := 1, dq := some egDqDelta }).2.1.any isRequeueOp = false) ∧
    ((V4L2Capturer.CaptureImage true V4L2_PIX_FMT_H264 640 480 egCaptureGroup {}
        { selectR := 1, dq := some egDqDelta }).2.2 = some CapAction.dropped) := by
  decide

/-- C1 counterexample: V4L2Util::AllocateBuffer succeeds although the
device's buffer-request call granted 2 buffers when 4 were requested — the
granted count written back into req.count is never examined, so a count
mismatch does not make the allocation fail. -/
theorem allocateBuffer_succeeds_despite_count_mismatch :
    (V4L2Util.AllocateBuffer egAllocEnvGrant2 egDmabufGroup 4).1 = true ∧
    egAllocEnvGrant2.reqbufs 4 = some 2 ∧
    (2 : Nat) ≠ 4 := by
  decide

/-- C6 counterexample: mapping a two-buffer, two-plane group in which plane
1 of buffer 1 fails to map leaves both planes of buffer 0 mapped — the
failure path unmaps only the earlier planes of the failing buffer, not the
planes of previously mapped buffers, so the group is not left unmapped. -/
theorem mmap_failure_leaves_earlier_buffers_mapped :
    (V4L2Util.MMap egMmapEnv2x2 egGroup2x2).1 = false ∧
    (V4L2Util.MMap egMmapEnv2x2 egGroup2x2).2.2 = [(0, 0), (0, 1)] ∧
    ([(0, 0), (0, 1)] : List (Nat × Nat)) ≠ [] := by
  decide

/-- C4 (code bug): handling a source-format-changed event streams off and
deallocates the capture group, but the follow-up SetFormat call — made with
width = height = 0 to keep the device geometry — unconditionally compares
the driver geometry (640x480) with the requested 0x0 and throws, so the
handler terminates the process: the capture group is never reallocated, no
capture buffer is requeued, and streaming never resumes.  The output group
is untouched.  (Even ignoring the throw, HandleEvent has no QueueBuffers
call, so the reallocated pool would resume streaming with nothing queued.) -/
theorem sourceChange_throws_and_never_requeues :
    (V4L2Codec.HandleEvent egSrcChangeEnv [CodecEvent.sourceChange] egDecoderState).crashed =
      some CrashCause.frameSizeMismatch ∧
    (V4L2Codec.HandleEvent egSrcChangeEnv [CodecEvent.sourceChange] egDecoderState).ops =
      [CodecOp.streamOff BufType.videoCaptureMplane,
       CodecOp.reqbufs BufType.videoCaptureMplane 0] ∧
    ((V4L2Codec.HandleEvent egSrcChangeEnv [CodecEvent.sourceChange]
        egDecoderState).ops.any isQbufCaptureOp = false) ∧
    ((V4L2Codec.HandleEvent egSrcChangeEnv [CodecEvent.sourceChange]
        egDecoderState).ops.any isStreamOnOp = false) ∧
    (V4L2Codec.HandleEvent egSrcChangeEnv [CodecEvent.sourceChange] egDecoderState).state.output =
      egDecoderState.output := by
  decide

/-- C9: the codec completion loop reads the abort flag at the top of the
iteration and again immediately after waking from the bounded select; in
either case V4L2Codec::CaptureBuffer returns false with the state
unchanged, no callback invoked, and no device operation beyond the select
wait itself, whose duration the 200 ms timeout bounds — so once the abort
flag is set, the worker loop running this iteration exits within one
readiness-wait timeout interval. -/
theorem captureBuffer_abort_prompt {τ : Type} (s : CodecState τ) (env : CodecLoopEnv)
    (h : env.abortAtEntry = true ∨ env.abortAfterSelect = true) :
    (V4L2Codec.CaptureBuffer s env).ret = false ∧
    (V4L2Codec.CaptureBuffer s env).state = s ∧
    (V4L2Codec.CaptureBuffer s env).invoked = [] ∧
    ((V4L2Codec.CaptureBuffer s env).ops.all (fun op => op == CodecOp.selectWait) = true) ∧
    captureElapsedUsec env ≤ captureWaitTimeoutUsec := by
  rcases h with h | h
  · simp [V4L2Codec.CaptureBuffer, h, captureElapsedUsec]
  · by_cases h0 : env.abortAtEntry = true
    · simp [V4L2Codec.CaptureBuffer, h0, captureElapsedUsec]
    · simp only [Bool.not_eq_true] at h0
      simp [V4L2Codec.CaptureBuffer, h, h0, captureElapsedUsec, Nat.min_le_right]

/-- Witness for C9: the abort flag observed at the top of the iteration. -/
theorem captureBuffer_abort_prompt_witness :
    (({ abortAtEntry := true } : CodecLoopEnv).abortAtEntry = true ∨
     ({ abortAtEntry := true } : CodecLoopEnv).abortAfterSelect = true) ∧
    ((V4L2Codec.CaptureBuffer egDecoderState { abortAtEntry := true }).ret = false ∧
     (V4L2Codec.CaptureBuffer egDecoderState { abortAtEntry := true }).state =
       egDecoderState ∧
     (V4L2Codec.CaptureBuffer egDecoderState { abortAtEntry := true }).invoked = [] ∧
     ((V4L2Codec.CaptureBuffer egDecoderState
         { abortAtEntry := true }).ops.all (fun op => op == CodecOp.selectWait) = true) ∧
     captureElapsedUsec { abortAtEntry := true } ≤ captureWaitTimeoutUsec) :=
  ⟨Or.inl rfl,
   captureBuffer_abort_prompt egDecoderState { abortAtEntry := true } (Or.inl rfl)⟩

/-- Resizing the buffers vector yields exactly the requested length. -/
theorem resizeBuffers_length (bs : List V4L2Buffer) (n : Nat) :
    (resizeBuffers bs n).length = n := by
  simp [resizeBuffers]
  omega

/-- mmapOneBuffer rewrites buffers in place: the vector length is kept. -/
theorem mmapOneBuffer_buffers_length (env : MmapEnv) (typ : BufType) (np : Nat)
    (dma : Bool) (i : Nat) (st : MmapState) :
    ((mmapOneBuffer env typ np dma i st).2).buffers.length = st.buffers.length := by
  unfold mmapOneBuffer
  repeat' split
  all_goals try simp [List.length_set]
  all_goals split <;> simp [List.length_set]

/-- The MMap buffer loop keeps the length of the buffers vector. -/
theorem mmapBuffers_buffers_length (env : MmapEnv) (typ : BufType) (np : Nat) (dma : Bool) :
    ∀ (cnt i : Nat) (st : MmapState),
      ((mmapBuffers env typ np dma i cnt st).2).buffers.length = st.buffers.length := by
  intro cnt
  induction cnt with
  | zero => intro i st; rfl
  | succ n ih =>
    intro i st
    unfold mmapBuffers
    rcases hob : mmapOneBuffer env typ np dma i st with ⟨ok, st2⟩
    have hlen : st2.buffers.length = st.buffers.length := by
      have h := mmapOneBuffer_buffers_length env typ np dma i st
      rw [hob] at h
      exact h
    cases ok
    · simp [hob, hlen]
    · simp [hob, ih i.succ st2, hlen]

/-- The per-descriptor initialization fold of the DMABUF branch of
AllocateBuffer keeps the length of the buffers vector. -/
theorem dmabufInitFold_length (g : V4L2BufferGroup) :
    ∀ (l : List Nat) (bs : List V4L2Buffer),
      (l.foldl
        (fun (bufs : List V4L2Buffer) i =>
          let buffer := bufs.getD i ({} : V4L2Buffer)
          let inner := { buffer.inner with
                         typ := g.type, memory := MemoryType.dmabuf, index := i,
                         length := if g.type.isMultiplanar then g.num_planes else 1 }
          bufs.set i { buffer with inner := inner })
        bs).length = bs.length
  | [], _bs => rfl
  | i :: l, bs => by
    rw [List.foldl_cons, dmabufInitFold_length g l]
    simp [List.length_set]

/-- C1 amended: V4L2Util::AllocateBuffer never inspects the buffer count the
driver writes back into req.count.  Whenever the buffer-request ioctl
succeeds — with any granted count — the resulting group records the
requested count and holds a buffers vector of exactly the requested length,
and the entire allocation result is identical to what it would be had the
driver granted precisely the requested count; a granted count different
from the requested one therefore cannot make the allocation fail. -/
theorem allocateBuffer_ignores_granted_count (env : AllocEnv) (g : V4L2BufferGroup)
    (n c : Nat) (h : env.reqbufs n = some c) :
    (V4L2Util.AllocateBuffer env g n).2.1.num_buffers = n ∧
    (V4L2Util.AllocateBuffer env g n).2.1.buffers.length = n ∧
    V4L2Util.AllocateBuffer env g n =
      V4L2Util.AllocateBuffer { env with reqbufs := fun _ => some n } g n := by
  refine ⟨?_, ?_, ?_⟩
  · rcases hm : g.memory with _ | _ <;>
      simp [V4L2Util.AllocateBuffer, h, hm, V4L2Util.MMap]
  · rcases hm : g.memory with _ | _
    · simp only [V4L2Util.AllocateBuffer, h, hm]
      simp only [V4L2Util.MMap]
      rw [mmapBuffers_buffers_length]
      simp [resizeBuffers_length]
    · simp only [V4L2Util.AllocateBuffer, h, hm]
      rw [dmabufInitFold_length]
      simp [resizeBuffers_length]
  · simp [V4L2Util.AllocateBuffer, h]

/-- Witness for C1 amended: the driver grants 2 of 4 requested buffers, the
ioctl succeeds, and the group still records 4 buffers. -/
theorem allocateBuffer_ignores_granted_count_witness :
    egAllocEnvGrant2.reqbufs 4 = some 2 ∧
    ((V4L2Util.AllocateBuffer egAllocEnvGrant2 egDmabufGroup 4).2.1.num_buffers = 4 ∧
     (V4L2Util.AllocateBuffer egAllocEnvGrant2 egDmabufGroup 4).2.1.buffers.length = 4 ∧
     V4L2Util.AllocateBuffer egAllocEnvGrant2 egDmabufGroup 4 =
       V4L2Util.AllocateBuffer { egAllocEnvGrant2 with reqbufs := fun _ => some 4 }
         egDmabufGroup 4) :=
  ⟨rfl, allocateBuffer_ignores_granted_count egAllocEnvGrant2 egDmabufGroup 4 2 rfl⟩

/-- The result frame depends only on the capture group, geometry and target
format of the codec state. -/
theorem completionFrame_congr {τ : Type} (a b : CodecState τ)
    (hcap : a.capture = b.capture) (hw : a.width = b.width) (hh : a.height = b.height)
    (hf : a.dst_fmt = b.dst_fmt) (cap : CapRes) :
    V4L2Codec.completionFrame a cap = V4L2Codec.completionFrame b cap := by
  simp [V4L2Codec.completionFrame, hcap, hw, hh, hf]

/-- One submission with a non-empty free pool: the head index moves from the
pool to the device's output queue, the callback joins the back of the
pending-task queue, and everything the completion loop later reads (capture
group, geometry, target format, pending completions) is untouched. -/
theorem sysSubmit_cons {τ : Type} (s : SysState τ) (f : V4L2FrameBuffer) (t : τ)
    (i : Nat) (rest : List Nat) (h : s.codec.output_buffer_index = i :: rest) :
    (sysSubmit s f t).codec.output_buffer_index = rest ∧
    (sysSubmit s f t).codec.capturing_tasks = s.codec.capturing_tasks ++ [t] ∧
    (sysSubmit s f t).devOutQueued = s.devOutQueued ++ [i] ∧
    (sysSubmit s f t).devCapPending = s.devCapPending ∧
    (sysSubmit s f t).invoked = s.invoked ∧
    (sysSubmit s f t).codec.capture = s.codec.capture ∧
    (sysSubmit s f t).codec.width = s.codec.width ∧
    (sysSubmit s f t).codec.height = s.codec.height ∧
    (sysSubmit s f t).codec.dst_fmt = s.codec.dst_fmt := by
  by_cases hm : s.codec.output.memory = MemoryType.dmabuf <;>
    simp [sysSubmit, V4L2Codec.EmplaceBuffer, h, Queue.pop, Queue.push, hm, applyOps]

/-- Submitting a batch no larger than the free pool: the first
`subs.length` pool indices move to the device's output queue in pool order,
the callbacks append to the pending-task queue in submission order, and the
rest of the system is untouched. -/
theorem sysSubmitAll_spec {τ : Type} :
    ∀ (subs : List (V4L2FrameBuffer × τ)) (s : SysState τ),
      subs.length ≤ s.codec.output_buffer_index.length →
      (sysSubmitAll s subs).codec.output_buffer_index =
        s.codec.output_buffer_index.drop subs.length ∧
      (sysSubmitAll s subs).codec.capturing_tasks =
        s.codec.capturing_tasks ++ subs.map Prod.snd ∧
      (sysSubmitAll s subs).devOutQueued =
        s.devOutQueued ++ s.codec.output_buffer_index.take subs.length ∧
      (sysSubmitAll s subs).devCapPending = s.devCapPending ∧
      (sysSubmitAll s subs).invoked = s.invoked ∧
      (sysSubmitAll s subs).codec.capture = s.codec.capture ∧
      (sysSubmitAll s subs).codec.width = s.codec.width ∧
      (sysSubmitAll s subs).codec.height = s.codec.height ∧
      (sysSubmitAll s subs).codec.dst_fmt = s.codec.dst_fmt
  | [], s, _h => by simp [sysSubmitAll]
  | (f, t) :: subs, s, h => by
    rcases hp : s.codec.output_buffer_index with _ | ⟨i, rest⟩
    · rw [hp] at h
      simp at h
    · obtain ⟨e1, e2, e3, e4, e5, e6, e7, e8, e9⟩ := sysSubmit_cons s f t i rest hp
      have hlen : subs.length ≤ (sysSubmit s f t).codec.output_buffer_index.length := by
        rw [e1]
        rw [hp] at h
        simpa using h
      obtain ⟨i1, i2, i3, i4, i5, i6, i7, i8, i9⟩ := sysSubmitAll_spec subs (sysSubmit s f t) hlen
      have hall : sysSubmitAll s ((f, t) :: subs) = sysSubmitAll (sysSubmit s f t) subs := rfl
      refine ⟨?_, ?_, ?_, ?_, ?_, ?_, ?_, ?_, ?_⟩
      · rw [hall, i1, e1]
        simp
      · rw [hall, i2, e2]
        simp
      · rw [hall, i3, e3, e1]
        simp
      · rw [hall, i4, e4]
      · rw [hall, i5, e5]
      · rw [hall, i6, e6]
      · rw [hall, i7, e7]
      · rw [hall, i8, e8]
      · rw [hall, i9, e9]

/-- One completion-loop iteration against the in-order device with work
pending: the oldest output completion returns its index to the pool, the
oldest pending callback is popped and invoked with the frame built from the
oldest capture completion, and the capture group and geometry are kept. -/
theorem sysCompleteStep_cons {τ : Type} (s : SysState τ) (m : τ) (ms : Queue τ)
    (o : Nat) (os : List Nat) (cap : CapRes) (cs : List CapRes)
    (ht : s.codec.capturing_tasks = m :: ms)
    (ho : s.devOutQueued = o :: os)
    (hc : s.devCapPending = cap :: cs) :
    (sysCompleteStep s).codec.capturing_tasks = ms ∧
    (sysCompleteStep s).devOutQueued = os ∧
    (sysCompleteStep s).devCapPending = cs ∧
    (sysCompleteStep s).invoked =
      s.invoked ++ [(m, V4L2Codec.completionFrame s.codec cap)] ∧
    (sysCompleteStep s).codec.capture = s.codec.capture ∧
    (sysCompleteStep s).codec.width = s.codec.width ∧
    (sysCompleteStep s).codec.height = s.codec.height ∧
    (sysCompleteStep s).codec.dst_fmt = s.codec.dst_fmt := by
  simp [sysCompleteStep, inOrderEnv, V4L2Codec.CaptureBuffer, V4L2Codec.captureRdBranch,
        ho, hc, ht, Queue.pop, Queue.push, V4L2Codec.completionFrame]

/-- Running `n` completion-loop iterations with at least `n` pending tasks,
queued output buffers, and pending capture completions appends to the
invocation log the first `n` tasks paired, in order, with the frames built
from the first `n` capture completions. -/
theorem sysCompleteN_spec {τ : Type} :
    ∀ (n : Nat) (s : SysState τ),
      n ≤ s.codec.capturing_tasks.length →
      n ≤ s.devOutQueued.length →
      n ≤ s.devCapPending.length →
      (sysCompleteN s n).invoked =
        s.invoked ++ (s.codec.capturing_tasks.take n).zip
          ((s.devCapPending.take n).map (V4L2Codec.completionFrame s.codec))
  | 0, s, _, _, _ => by simp [sysCompleteN]
  | n + 1, s, h1, h2, h3 => by
    rcases ht : s.codec.capturing_tasks with _ | ⟨m, ms⟩
    · rw [ht] at h1; simp at h1
    · rcases ho : s.devOutQueued with _ | ⟨o, os⟩
      · rw [ho] at h2; simp at h2
      · rcases hc : s.devCapPending with _ | ⟨cap, cs⟩
        · rw [hc] at h3; simp at h3
        · obtain ⟨e1, e2, e3, e4, e5, e6, e7, e8⟩ := sysCompleteStep_cons s m ms o os cap cs ht ho hc
          have hn1 : n ≤ (sysCompleteStep s).codec.capturing_tasks.length := by
            rw [e1]; rw [ht] at h1; simpa using h1
          have hn2 : n ≤ (sysCompleteStep s).devOutQueued.length := by
            rw [e2]; rw [ho] at h2; simpa using h2
          have hn3 : n ≤ (sysCompleteStep s).devCapPending.length := by
            rw [e3]; rw [hc] at h3; simpa using h3
          have ih := sysCompleteN_spec n (sysCompleteStep s) hn1 hn2 hn3
          have hstep : sysCompleteN s (n + 1) = sysCompleteN (sysCompleteStep s) n := rfl
          have hcong : ∀ x, V4L2Codec.completionFrame (sysCompleteStep s).codec x =
              V4L2Codec.completionFrame s.codec x :=
            completionFrame_congr _ _ e5 e6 e7 e8
          rw [hstep, ih, e1, e3, e4]
          simp [List.map_congr_left (fun x _ => hcong x), List.append_assoc]

/-- C2: the FIFO scenario — starting from a codec state with no pending
tasks, submit N work items (N at most the free-pool size) through
V4L2Codec::EmplaceBuffer, then let the device complete them in submission
order and run one V4L2Codec::CaptureBuffer iteration per item: the
completion callbacks are invoked in exactly the submission order, each
receiving the frame built from the corresponding in-order capture-stream
dequeue. -/
theorem fifo_completion_matching {τ : Type} (c : CodecState τ)
    (subs : List (V4L2FrameBuffer × τ)) (caps : List CapRes)
    (htasks : c.capturing_tasks = [])
    (hn : subs.length ≤ c.output_buffer_index.length)
    (hcaps : caps.length = subs.length) :
    (fifoScenario c subs caps).invoked =
      (subs.map Prod.snd).zip (caps.map (V4L2Codec.completionFrame c)) ∧
    (fifoScenario c subs caps).invoked.map Prod.fst = subs.map Prod.snd := by
  have s0def : ({ codec := c, devOutQueued := [], devCapPending := caps,
                  invoked := [] } : SysState τ).codec = c := rfl
  obtain ⟨a1, a2, a3, a4, a5, a6, a7, a8, a9⟩ :=
    sysSubmitAll_spec subs
      ({ codec := c, devOutQueued := [], devCapPending := caps, invoked := [] } : SysState τ)
      (by simpa using hn)
  set s1 := sysSubmitAll
    ({ codec := c, devOutQueued := [], devCapPending := caps, invoked := [] } : SysState τ)
    subs with hs1
  have hn1 : subs.length ≤ s1.codec.capturing_tasks.length := by
    rw [a2]; simp [htasks]
  have hn2 : subs.length ≤ s1.devOutQueued.length := by
    rw [a3]
    simp [List.length_take]
    omega
  have hn3 : subs.length ≤ s1.devCapPending.length := by
    rw [a4]
    simp [hcaps]
  have hrun := sysCompleteN_spec subs.length s1 hn1 hn2 hn3
  have hcong : ∀ x, V4L2Codec.completionFrame s1.codec x =
      V4L2Codec.completionFrame c x :=
    completionFrame_congr _ _ (by rw [a6]) (by rw [a7]) (by rw [a8]) (by rw [a9])
  have htake1 : s1.codec.capturing_tasks.take subs.length = subs.map Prod.snd := by
    rw [a2]
    simp [htasks]
  have htake2 : s1.devCapPending.take subs.length = caps := by
    rw [a4, ← hcaps]
    simp [List.take_length]
  have hmain : (fifoScenario c subs caps).invoked =
      (subs.map Prod.snd).zip (caps.map (V4L2Codec.completionFrame c)) := by
    have : fifoScenario c subs caps = sysCompleteN s1 subs.length := rfl
    rw [this, hrun, a5, htake1, htake2]
    simp [List.map_congr_left (fun x _ => hcong x)]
  refine ⟨hmain, ?_⟩
  rw [hmain, List.map_fst_zip]
  simp [hcaps]

/-- Witness for C2: three submissions with markers 10, 11, 12 against a pool
of four descriptors, completed in order. -/
theorem fifo_completion_matching_witness :
    egDecoderState.capturing_tasks = [] ∧
    egSubs.length ≤ egDecoderState.output_buffer_index.length ∧
    egCaps.length = egSubs.length ∧
    ((fifoScenario egDecoderState egSubs egCaps).invoked =
       (egSubs.map Prod.snd).zip
         (egCaps.map (V4L2Codec.completionFrame egDecoderState)) ∧
     (fifoScenario egDecoderState egSubs egCaps).invoked.map Prod.fst =
       egSubs.map Prod.snd) :=
  ⟨rfl, by decide, rfl,
   fifo_completion_matching egDecoderState egSubs egCaps rfl (by decide) rfl⟩

/-- The munmap fold of the MMap failure path (v4l2_utils.cpp lines 364-367)
erases exactly the planes of the failing buffer that this call had already
mapped: if the incoming mapped set is `m ++ [(i,0) … (i,p-1)] ++ tail` with
no `(i, _)` entry in `m` and none with plane index below `p` in `tail`, the
fold returns the mapped set to `m ++ tail`. -/
theorem cleanupFold_mapped (i : Nat) :
    ∀ (p : Nat) (b : V4L2Buffer) (l m tail : List (Nat × Nat)),
      (∀ q, (i, q) ∉ m) →
      (∀ q, q < p → (i, q) ∉ tail) →
      l = m ++ (List.range p).map (fun q => (i, q)) ++ tail →
      ((List.range p).foldl
          (fun (acc : V4L2Buffer × List (Nat × Nat)) q =>
            ({ acc.1 with plane_start := acc.1.plane_start.set q none },
             acc.2.erase (i, q)))
          (b, l)).2 = m ++ tail := by
  intro p
  induction p with
  | zero =>
    intro b l m tail hm htail hl
    simp at hl
    simpa using hl
  | succ p ih =>
    intro b l m tail hm htail hl
    rw [List.range_succ, List.foldl_append]
    simp only [List.foldl_cons, List.foldl_nil]
    have htail2 : ∀ q, q < p → (i, q) ∉ ((i, p) :: tail) := by
      intro q hq
      simp only [List.mem_cons, not_or]
      refine ⟨?_, htail q (by omega)⟩
      intro hcontra
      have : q = p := by
        have := congrArg Prod.snd hcontra
        simpa using this
      omega
    have hl2 : l = m ++ (List.range p).map (fun q => (i, q)) ++ ((i, p) :: tail) := by
      rw [hl, List.range_succ]
      simp
    rw [ih b l m ((i, p) :: tail) hm htail2 hl2]
    rw [List.erase_append_right _ (hm p), List.erase_cons_head]

/-- When every remaining plane maps successfully, the plane loop succeeds
and appends exactly those planes to the mapped set, in order. -/
theorem mapPlanes_success (env : MmapEnv) (i : Nat) :
    ∀ (len p : Nat) (b : V4L2Buffer) (m : List (Nat × Nat)),
      (∀ q, q < len → env.mmapAt i (p + q) ≠ none) →
      (mapPlanes env i p len b m).1 = true ∧
      (mapPlanes env i p len b m).2.2 =
        m ++ (List.range' p len).map (fun q => (i, q))
  | 0, p, b, m, _h => by simp [mapPlanes]
  | len + 1, p, b, m, h => by
    have h0 : env.mmapAt i p ≠ none := by
      have := h 0 (by omega)
      simpa using this
    rcases ha : env.mmapAt i p with _ | addr
    · exact absurd ha h0
    · have hrest : ∀ q, q < len → env.mmapAt i ((p + 1) + q) ≠ none := by
        intro q hq
        have := h (q + 1) (by omega)
        have harith : p + (q + 1) = p + 1 + q := by omega
        rwa [harith] at this
      obtain ⟨ih1, ih2⟩ := mapPlanes_success env i len (p + 1) _ (m ++ [(i, p)]) hrest
      refine ⟨?_, ?_⟩
      · simp only [mapPlanes, ha]
        exact ih1
      · simp only [mapPlanes, ha]
        rw [ih2, List.range'_succ]
        simp

/-- When plane `p + k` fails to map after planes `p … p+k-1` mapped, the
plane loop fails and leaves the mapped set exactly as it was before the
call (its own additions are all unmapped again), provided the incoming set
`m ++ [(i,0) … (i,p-1)]` holds no other `(i, _)` entries. -/
theorem mapPlanes_fail (env : MmapEnv) (i : Nat) :
    ∀ (k len p : Nat) (b : V4L2Buffer) (mp m : List (Nat × Nat)),
      (∀ q, (i, q) ∉ m) →
      k < len →
      (∀ q, q < k → env.mmapAt i (p + q) ≠ none) →
      env.mmapAt i (p + k) = none →
      mp = m ++ (List.range p).map (fun q => (i, q)) →
      (mapPlanes env i p len b mp).1 = false ∧
      (mapPlanes env i p len b mp).2.2 = m
  | 0, len, p, b, mp, m, hm, hk, _hsucc, hfail, hmp => by
    rcases len with _ | len
    · omega
    · have hfail0 : env.mmapAt i p = none := by simpa using hfail
      refine ⟨?_, ?_⟩
      · simp only [mapPlanes, hfail0]
      · simp only [mapPlanes, hfail0]
        have hc := cleanupFold_mapped i p
          ({ b with plane_length := b.plane_length.set p (b.inner.planeLengths.getD p 0) })
          mp m [] hm (by intro q hq; simp) (by rw [hmp]; simp)
        simpa using hc
  | k + 1, len, p, b, mp, m, hm, hk, hsucc, hfail, hmp => by
    rcases len with _ | len
    · omega
    · have h0 : env.mmapAt i p ≠ none := by
        have := hsucc 0 (by omega)
        simpa using this
      rcases ha : env.mmapAt i p with _ | addr
      · exact absurd ha h0
      · have hrest : ∀ q, q < k → env.mmapAt i ((p + 1) + q) ≠ none := by
          intro q hq
          have := hsucc (q + 1) (by omega)
          have harith : p + (q + 1) = p + 1 + q := by omega
          rwa [harith] at this
        have hfail2 : env.mmapAt i ((p + 1) + k) = none := by
          have harith : p + (k + 1) = p + 1 + k := by omega
          rwa [harith] at hfail
        have hmp2 : mp ++ [(i, p)] =
            m ++ (List.range (p + 1)).map (fun q => (i, q)) := by
          rw [hmp, List.range_succ]
          simp
        obtain ⟨ih1, ih2⟩ := mapPlanes_fail env i k len (p + 1) _ (mp ++ [(i, p)]) m
          hm (by omega) hrest hfail2 hmp2
        refine ⟨?_, ?_⟩
        · simp only [mapPlanes, ha]
          exact ih1
        · simp only [mapPlanes, ha]
          exact ih2

/-- A multiplanar buffer without DMA export whose query succeeds and whose
planes all map: the buffer-loop iteration succeeds and appends exactly this
buffer's planes to the mapped set. -/
theorem mmapOneBuffer_success (env : MmapEnv) (typ : BufType) (np : Nat) (j : Nat)
    (st : MmapState) (htyp : typ.isMultiplanar = true)
    (layout : List (Nat × Nat)) (hqb : env.querybuf j = some layout)
    (hmaps : ∀ q, q < np → env.mmapAt j q ≠ none) :
    (mmapOneBuffer env typ np false j st).1 = true ∧
    (mmapOneBuffer env typ np false j st).2.mapped =
      st.mapped ++ (List.range np).map (fun q => (j, q)) := by
  have key1 : ∀ (b : V4L2Buffer) (m : List (Nat × Nat)),
      (mapPlanes env j 0 np b m).1 = true :=
    fun b m => (mapPlanes_success env j np 0 b m (by intro q hq; simpa using hmaps q hq)).1
  have key2 : ∀ (b : V4L2Buffer) (m : List (Nat × Nat)),
      (mapPlanes env j 0 np b m).2.2 = m ++ (List.range' 0 np).map (fun q => (j, q)) :=
    fun b m => (mapPlanes_success env j np 0 b m (by intro q hq; simpa using hmaps q hq)).2
  constructor
  · unfold mmapOneBuffer
    rw [hqb]
    simp only [htyp, if_true, Bool.false_eq_true, if_false]
    split
    · rename_i b2 m2 heq
      have h1 := congrArg Prod.fst heq
      rw [key1] at h1
      simp at h1
    · rfl
  · unfold mmapOneBuffer
    rw [hqb]
    simp only [htyp, if_true, Bool.false_eq_true, if_false]
    split
    · rename_i b2 m2 heq
      have h1 := congrArg Prod.fst heq
      rw [key1] at h1
      simp at h1
    · rename_i b2 m2 heq
      have h2 := congrArg (fun r => r.2.2) heq
      simp only at h2
      rw [key2] at h2
      rw [← h2, List.range_eq_range']

/-- A multiplanar buffer without DMA export whose query succeeds, whose
planes below `p` map, and whose plane `p` hits MAP_FAILED: the buffer-loop
iteration fails and the mapped set is exactly what it was before the
iteration — the planes of earlier buffers stay mapped. -/
theorem mmapOneBuffer_plane_fail (env : MmapEnv) (typ : BufType) (np : Nat) (j p : Nat)
    (st : MmapState) (htyp : typ.isMultiplanar = true)
    (layout : List (Nat × Nat)) (hqb : env.querybuf j = some layout)
    (hm : ∀ q, (j, q) ∉ st.mapped)
    (hp : p < np)
    (hcur : ∀ q, q < p → env.mmapAt j q ≠ none)
    (hfail : env.mmapAt j p = none) :
    (mmapOneBuffer env typ np false j st).1 = false ∧
    (mmapOneBuffer env typ np false j st).2.mapped = st.mapped := by
  have key1 : ∀ (b : V4L2Buffer),
      (mapPlanes env j 0 np b st.mapped).1 = false :=
    fun b => (mapPlanes_fail env j p np 0 b st.mapped st.mapped hm hp
      (by intro q hq; simpa using hcur q hq) (by simpa using hfail) (by simp)).1
  have key2 : ∀ (b : V4L2Buffer),
      (mapPlanes env j 0 np b st.mapped).2.2 = st.mapped :=
    fun b => (mapPlanes_fail env j p np 0 b st.mapped st.mapped hm hp
      (by intro q hq; simpa using hcur q hq) (by simpa using hfail) (by simp)).2
  constructor
  · unfold mmapOneBuffer
    rw [hqb]
    simp only [htyp, if_true, Bool.false_eq_true, if_false]
    split
    · rfl
    · rename_i b2 m2 heq
      have h1 := congrArg Prod.fst heq
      rw [key1] at h1
      simp at h1
  · unfold mmapOneBuffer
    rw [hqb]
    simp only [htyp, if_true, Bool.false_eq_true, if_false]
    split
    · rename_i b2 m2 heq
      have h2 := congrArg (fun r => r.2.2) heq
      simp only at h2
      rw [key2] at h2
      rw [← h2]
    · rename_i b2 m2 heq
      have h1 := congrArg Prod.fst heq
      rw [key1] at h1
      simp at h1

/-- A run of the MMap buffer loop over `k` buffers that all query and map
successfully advances the loop to index `s + k`, appending all their planes
to the mapped set in order. -/
theorem mmapBuffers_success_run (env : MmapEnv) (typ : BufType) (np : Nat)
    (htyp : typ.isMultiplanar = true) :
    ∀ (k s rem : Nat) (st : MmapState),
      (∀ j, s ≤ j → j < s + k → env.querybuf j ≠ none) →
      (∀ j q, s ≤ j → j < s + k → q < np → env.mmapAt j q ≠ none) →
      ∃ bufs : List V4L2Buffer,
        mmapBuffers env typ np false s (k + rem) st =
          mmapBuffers env typ np false (s + k) rem
            { buffers := bufs,
              mapped := st.mapped ++
                (List.range' s k).flatMap
                  (fun j => (List.range np).map (fun q => (j, q))) }
  | 0, s, rem, st, _hq, _hm => by
    refine ⟨st.buffers, ?_⟩
    simp
  | k + 1, s, rem, st, hq, hm => by
    rcases hql : env.querybuf s with _ | layout
    · exact absurd hql (hq s (by omega) (by omega))
    · obtain ⟨h1, h2⟩ := mmapOneBuffer_success env typ np s st htyp layout hql
        (fun q hq2 => hm s q (by omega) (by omega) hq2)
      rcases hob : mmapOneBuffer env typ np false s st with ⟨ok, st2⟩
      rw [hob] at h1 h2
      simp at h1 h2
      subst h1
      obtain ⟨bufs, hbufs⟩ := mmapBuffers_success_run env typ np htyp k (s + 1) rem st2
        (fun j hj1 hj2 => hq j (by omega) (by omega))
        (fun j q hj1 hj2 hq2 => hm j q (by omega) (by omega) hq2)
      refine ⟨bufs, ?_⟩
      have harith : k + 1 + rem = (k + rem) + 1 := by omega
      rw [harith]
      simp only [mmapBuffers, hob]
      rw [hbufs]
      have hidx : s + 1 + k = s + (k + 1) := by omega
      have hmap : st2.mapped ++
          (List.range' (s + 1) k).flatMap (fun j => (List.range np).map (fun q => (j, q))) =
          st.mapped ++
          (List.range' s (k + 1)).flatMap (fun j => (List.range np).map (fun q => (j, q))) := by
        rw [h2, List.range'_succ]
        simp [List.append_assoc]
      rw [hidx, hmap]

/-- Membership in the set of planes of the first `i` buffers forces a
buffer index below `i`. -/
theorem mem_allPlanesOf {a b i np : Nat} (h : (a, b) ∈ allPlanesOf i np) : a < i := by
  simp only [allPlanesOf, List.mem_flatMap, List.mem_map, List.mem_range] at h
  obtain ⟨j, hj, q, _hq, heq⟩ := h
  cases heq
  exact hj

/-- C6 amended: when mapping a multiplanar memory-mapped Buffer Group, if
buffers 0 … i-1 query and map fully, buffer i queries, its planes below `p`
map, and its plane `p` fails to map, then V4L2Util::MMap fails having
unmapped only the earlier planes of buffer `i` itself: the planes of all
previously mapped buffers — every (buffer, plane) pair with buffer index
below `i` — are still mapped when MMap returns.  The claim's expectation of
unmapping across all buffers of the group does not hold; those mappings are
only released later by V4L2Util::UnMap during deallocation. -/
theorem mmap_plane_failure_spares_earlier_buffers (env : MmapEnv) (g : V4L2BufferGroup)
    (i p : Nat)
    (htyp : g.type.isMultiplanar = true)
    (hdma : g.has_dmafd = false)
    (hi : i < g.num_buffers)
    (hp : p < g.num_planes)
    (hqb : ∀ j, j < i + 1 → env.querybuf j ≠ none)
    (hprev : ∀ j, j < i → ∀ q, q < g.num_planes → env.mmapAt j q ≠ none)
    (hcur : ∀ q, q < p → env.mmapAt i q ≠ none)
    (hfail : env.mmapAt i p = none) :
    (V4L2Util.MMap env g).1 = false ∧
    (V4L2Util.MMap env g).2.2 = allPlanesOf i g.num_planes := by
  unfold V4L2Util.MMap
  rw [hdma]
  have hsplit : g.num_buffers = i + ((g.num_buffers - i - 1) + 1) := by omega
  rw [hsplit]
  obtain ⟨bufs, hrun⟩ := mmapBuffers_success_run env g.type g.num_planes htyp i 0
      ((g.num_buffers - i - 1) + 1) { buffers := g.buffers, mapped := [] }
      (fun j _h0 hj => hqb j (by omega))
      (fun j q _h0 hj hq2 => hprev j (by omega) q hq2)
  rw [hrun]
  have hmapped1 : (({ buffers := g.buffers, mapped := [] } : MmapState).mapped ++
      (List.range' 0 i).flatMap
        (fun j => (List.range g.num_planes).map (fun q => (j, q)))) =
      allPlanesOf i g.num_planes := by
    simp [allPlanesOf, List.range_eq_range']
  rw [hmapped1]
  have hzero : (0 : Nat) + i = i := by omega
  rw [hzero]
  obtain ⟨f1, f2⟩ := mmapOneBuffer_plane_fail env g.type g.num_planes i p
      { buffers := bufs, mapped := allPlanesOf i g.num_planes } htyp
      ((env.querybuf i).getD []) (by
        rcases hql : env.querybuf i with _ | layout
        · exact absurd hql (hqb i (by omega))
        · simp [hql])
      (fun q hmem => absurd (mem_allPlanesOf hmem) (Nat.lt_irrefl i))
      hp hcur hfail
  rcases hob : mmapOneBuffer env g.type g.num_planes false i
      { buffers := bufs, mapped := allPlanesOf i g.num_planes } with ⟨ok, st2⟩
  rw [hob] at f1 f2
  simp at f1 f2
  subst f1
  constructor
  · simp only [mmapBuffers, hob]
  · simp only [mmapBuffers, hob]
    exact f2

/-- Witness for C6 amended: two buffers of two planes, failure at plane 1 of
buffer 1, leaving both planes of buffer 0 mapped. -/
theorem mmap_plane_failure_spares_earlier_buffers_witness :
    (egGroup2x2.type.isMultiplanar = true ∧
     egGroup2x2.has_dmafd = false ∧
     1 < egGroup2x2.num_buffers ∧
     1 < egGroup2x2.num_planes ∧
     (∀ j, j < 1 + 1 → egMmapEnv2x2.querybuf j ≠ none) ∧
     (∀ j, j < 1 → ∀ q, q < egGroup2x2.num_planes → egMmapEnv2x2.mmapAt j q ≠ none) ∧
     (∀ q, q < 1 → egMmapEnv2x2.mmapAt 1 q ≠ none) ∧
     egMmapEnv2x2.mmapAt 1 1 = none) ∧
    ((V4L2Util.MMap egMmapEnv2x2 egGroup2x2).1 = false ∧
     (V4L2Util.MMap egMmapEnv2x2 egGroup2x2).2.2 = allPlanesOf 1 egGroup2x2.num_planes) :=
  ⟨⟨rfl, rfl, by decide, by decide, by decide, by decide, by decide, by decide⟩,
   mmap_plane_failure_spares_earlier_buffers egMmapEnv2x2 egGroup2x2 1 1
     rfl rfl (by decide) (by decide) (by decide) (by decide) (by decide) (by decide)⟩
